import Mathlib

/-!
Verification of the compilation bridge `luau_lsl_compile`
(src/src/luau_lsl_compile_wrapper.cpp).

The bridge drives an opaque compiler pipeline (`compileLSLOrThrow` plus
`BytecodeBuilder.getBytecode`, external to this repository) and translates
its outcome into a flat result: an owned byte buffer, a byte count written
through `outsize`, and a boolean written through `is_error`.

Modelling choices, read off the source:
* Payloads are byte sequences (`List UInt8`); bytecode may contain
  embedded zero bytes, so no string termination is modelled.
* The pipeline is opaque: it is modelled by its outcome, a sum of the
  four cases the bridge distinguishes (success with bytecode, a list of
  parse errors each carrying a line number and a message, a single
  compile error with line and message, and any other thrown failure).
  Per the spec the line number carried by an error object is the 1-based
  source line.
* `snprintf(buf, N, ...)` writes at most `N - 1` bytes and silently
  truncates; it is modelled by `List.take (N - 1)` of the full format.
* `malloc` may fail; that is modelled by the boolean `allocOk`.
* The two out-parameters are modelled as caller-provided initial state
  (`OutParams`), so that claims about initialisation and staleness are
  expressible: the bridge receives arbitrary initial contents and the
  theorems quantify over them.
-/

/-- Byte sequences, the payload type of the bridge. -/
abbrev Bytes := List UInt8

/-- Bytes of an ASCII string literal (every literal used by the bridge is
ASCII, where this agrees with UTF-8). -/
def strBytes (s : String) : Bytes :=
  s.data.map (fun c => UInt8.ofNat c.toNat)

/-- Decimal digits of a natural number, most significant first, driven by
structural fuel so that it computes by kernel reduction. Models the
rendering done by the %d conversion of snprintf. -/
def decDigitsAux : Nat → Nat → List Nat
  | 0, _ => []
  | fuel + 1, n => if n < 10 then [n] else decDigitsAux fuel (n / 10) ++ [n % 10]

/-- Decimal digit list of a natural number, most significant first. -/
def decDigits (n : Nat) : List Nat :=
  decDigitsAux (n + 1) n

/-- Decimal rendering of a natural number as ASCII bytes, as produced by
the %d conversion of snprintf for the line numbers of the bridge. -/
def natDecimal (n : Nat) : Bytes :=
  (decDigits n).map (fun d => UInt8.ofNat (48 + d))

/-- Truncation performed by snprintf with a buffer of `cap + 1` bytes: at
most `cap` payload bytes are kept. -/
def snprintfTrunc (cap : Nat) (s : Bytes) : Bytes :=
  s.take cap

/-- One parse error as carried by the ParseErrors exception: the line
number of the begin position of its location, and its message bytes. -/
structure ParseError where
  line : Nat
  message : Bytes
deriving DecidableEq

/-- The fixed header of the aggregated parse diagnostic,
msg = ": Parse Errors:" in the source. -/
def parseErrorHeader : Bytes := strBytes ": Parse Errors:"

/-- The untruncated text snprintf is asked to format for one parse error:
newline, "Line ", the line number, colon-space, the message. -/
def parseSegmentFull (e : ParseError) : Bytes :=
  strBytes "\nLine " ++ natDecimal e.line ++ strBytes ": " ++ e.message

/-- One formatted parse-error segment: snprintf into char line_msg[256]
keeps at most 255 bytes. -/
def parseSegment (e : ParseError) : Bytes :=
  snprintfTrunc 255 (parseSegmentFull e)

/-- The aggregated parse diagnostic: the header, then msg += line_msg for
each error in pipeline order. -/
def formatParseErrors (errs : List ParseError) : Bytes :=
  errs.foldl (fun msg e => msg ++ parseSegment e) parseErrorHeader

/-- The untruncated text snprintf is asked to format for a compile error:
colon, line number, colon-space, message. -/
def compileErrorFull (line : Nat) (msg : Bytes) : Bytes :=
  strBytes ":" ++ natDecimal line ++ strBytes ": " ++ msg

/-- The compile-error diagnostic: snprintf into char line_msg[512] keeps
at most 511 bytes. -/
def formatCompileError (line : Nat) (msg : Bytes) : Bytes :=
  snprintfTrunc 511 (compileErrorFull line msg)

/-- Outcome of the opaque compiler pipeline, as the four cases the
try/catch of the bridge distinguishes. -/
inductive PipelineOutcome where
  | success (bytecode : Bytes)
  | parseErrors (errors : List ParseError)
  | compileError (line : Nat) (message : Bytes)
  | otherFailure
deriving DecidableEq

/-- The local std::string result at the end of the try/catch: bytecode on
success, a formatted diagnostic on each failure branch. -/
def resultPayload : PipelineOutcome → Bytes
  | .success bc => bc
  | .parseErrors errs => formatParseErrors errs
  | .compileError line msg => formatCompileError line msg
  | .otherFailure => strBytes "Unknown compilation error"

/-- The value stored through is_error by the branch that handled the
outcome: false on success, true on every failure branch. -/
def resultIsError : PipelineOutcome → Bool
  | .success _ => false
  | _ => true

/-- The two out-parameters of the bridge, modelled as state so that their
caller-provided initial contents are explicit. -/
structure OutParams where
  outsize : Nat
  is_error : Bool
deriving DecidableEq

/-- The bridge, src/src/luau_lsl_compile_wrapper.cpp lines 18-59, as a
function of the pipeline outcome, the malloc outcome, and the initial
contents of the out-parameters. Step by step: outsize is zeroed first;
the try/catch computes the result payload and stores the error flag; then
malloc(result.size()) either fails, returning null with the state as it
stands, or succeeds, and the payload is copied out byte for byte and
outsize set to its length. -/
def luau_lsl_compile (outcome : PipelineOutcome) (allocOk : Bool)
    (init : OutParams) : Option Bytes × OutParams :=
  let s1 : OutParams := { init with outsize := 0 }
  let result : Bytes := resultPayload outcome
  let s2 : OutParams := { s1 with is_error := resultIsError outcome }
  if allocOk then
    (some result, { s2 with outsize := result.length })
  else
    (none, s2)

/-- A full call on source text: the pipeline is an arbitrary fixed
function from source bytes to outcome (the bridge passes the exact byte
range [source, source + size) through unchanged and keeps no state). -/
def bridgeCompile (pipeline : Bytes → PipelineOutcome) (allocOk : Bool)
    (init : OutParams) (source : Bytes) : Option Bytes × OutParams :=
  luau_lsl_compile (pipeline source) allocOk init

/-! Helper lemmas shared by the claim theorems. -/

/-- Accumulating appends by a left fold equals the starting value followed
by the flattened list of pieces. -/
theorem foldl_append_eq_flatten (f : ParseError → Bytes) :
    ∀ (l : List ParseError) (a : Bytes),
      l.foldl (fun msg e => msg ++ f e) a = a ++ (l.map f).flatten := by
  intro l
  induction l with
  | nil => intro a; simp
  | cons x xs ih =>
    intro a
    rw [List.foldl_cons, ih, List.map_cons, List.flatten_cons, List.append_assoc]

/-- The aggregated parse diagnostic is the header followed by the
formatted segments in pipeline order. -/
theorem formatParseErrors_eq (errs : List ParseError) :
    formatParseErrors errs = parseErrorHeader ++ (errs.map parseSegment).flatten :=
  foldl_append_eq_flatten parseSegment errs parseErrorHeader

/-- With positive fuel the digit expansion is never empty. -/
theorem decDigitsAux_ne_nil (fuel n : Nat) : decDigitsAux (fuel + 1) n ≠ [] := by
  rw [decDigitsAux]
  by_cases h : n < 10
  · rw [if_pos h]; simp
  · rw [if_neg h]; simp

/-- Every entry of the digit expansion is a decimal digit. -/
theorem decDigitsAux_lt_ten : ∀ (fuel n d : Nat), d ∈ decDigitsAux fuel n → d < 10 := by
  intro fuel
  induction fuel with
  | zero => intro n d h; exact absurd h (by rw [decDigitsAux]; simp)
  | succ f ih =>
    intro n d h
    rw [decDigitsAux] at h
    by_cases hn : n < 10
    · rw [if_pos hn] at h
      simp at h
      omega
    · rw [if_neg hn] at h
      rcases List.mem_append.mp h with h1 | h2
      · exact ih _ _ h1
      · simp at h2
        omega

/-- The digit list of a natural number starts with a decimal digit. -/
theorem decDigits_exists_cons (n : Nat) :
    ∃ d ds, decDigits n = d :: ds ∧ d < 10 := by
  have hne := decDigitsAux_ne_nil n n
  cases hd : decDigits n with
  | nil =>
    rw [decDigits] at hd
    exact absurd hd hne
  | cons d ds =>
    refine ⟨d, ds, rfl, ?_⟩
    apply decDigitsAux_lt_ten (n + 1) n
    rw [← decDigits, hd]
    exact List.mem_cons_self d ds

/-- The decimal rendering of a natural number starts with a digit byte. -/
theorem natDecimal_exists_cons (n : Nat) :
    ∃ d tl, d < 10 ∧ natDecimal n = UInt8.ofNat (48 + d) :: tl := by
  obtain ⟨d, ds, hd, hlt⟩ := decDigits_exists_cons n
  refine ⟨d, ds.map (fun d => UInt8.ofNat (48 + d)), hlt, ?_⟩
  rw [natDecimal, hd, List.map_cons]

/-- The untruncated compile diagnostic starts with a colon byte followed
by a digit byte. -/
theorem compileErrorFull_cons (line : Nat) (msg : Bytes) :
    ∃ d tl, d < 10 ∧
      compileErrorFull line msg = 58 :: UInt8.ofNat (48 + d) :: tl := by
  obtain ⟨d, tl, hlt, hnd⟩ := natDecimal_exists_cons line
  refine ⟨d, tl ++ (strBytes ": " ++ msg), hlt, ?_⟩
  have hcolon : strBytes ":" = [58] := by decide
  rw [compileErrorFull, hnd, hcolon]
  simp

/-- Each formatted parse segment fits in the 256-byte snprintf buffer. -/
theorem parseSegment_le (e : ParseError) : (parseSegment e).length ≤ 255 := by
  rw [parseSegment, snprintfTrunc, List.length_take]
  exact Nat.min_le_left 255 _

/-- On every failure branch the diagnostic payload is nonempty. -/
theorem resultPayload_pos (o : PipelineOutcome) (h : resultIsError o = true) :
    0 < (resultPayload o).length := by
  cases o with
  | success bc => simp [resultIsError] at h
  | parseErrors errs =>
    rw [resultPayload, formatParseErrors_eq, List.length_append]
    have h15 : parseErrorHeader.length = 15 := by decide
    omega
  | compileError l m =>
    obtain ⟨d, tl, _, hc⟩ := compileErrorFull_cons l m
    rw [resultPayload, formatCompileError, snprintfTrunc, hc]
    simp
  | otherFailure => rw [resultPayload]; decide

/-! Claim theorems. -/

set_option maxRecDepth 10000 in
/-- C1, counterexample: the claim asserts that each segment of the parse
diagnostic carries the full message text, but snprintf into a 256-byte
buffer truncates: for a single parse error on line 1 whose message is 300
bytes of 0x61, the diagnostic returned by the bridge is not the header
followed by the full segment. -/
theorem C1_counterexample :
    (luau_lsl_compile (.parseErrors [⟨1, List.replicate 300 97⟩]) true
        ⟨0, false⟩).1 ≠
      some (parseErrorHeader ++ parseSegmentFull ⟨1, List.replicate 300 97⟩) := by
  decide

/-- C1, amended: whenever each formatted segment (newline, "Line ", the
line number carried by the error, colon-space, message) is at most 255
bytes, the diagnostic returned on the parse-error branch is exactly the
fixed header ": Parse Errors:" followed by one such segment per error, in
pipeline order, with no re-sorting and no de-duplication; longer segments
are truncated to their first 255 bytes. -/
theorem C1_parse_diagnostic_format (errs : List ParseError) (init : OutParams)
    (h : ∀ e ∈ errs, (parseSegmentFull e).length ≤ 255) :
    (luau_lsl_compile (.parseErrors errs) true init).1 =
      some (parseErrorHeader ++ (errs.map parseSegmentFull).flatten) := by
  have hseg : errs.map parseSegment = errs.map parseSegmentFull := by
    apply List.map_congr_left
    intro e he
    rw [parseSegment, snprintfTrunc, List.take_of_length_le (h e he)]
  rw [luau_lsl_compile]
  simp only [if_pos]
  rw [resultPayload, formatParseErrors_eq, hseg]

/-- C1, witness: two short parse errors on lines 1 and 3. -/
theorem C1_parse_diagnostic_format_witness :
    (∀ e ∈ [ParseError.mk 1 (strBytes "syntax error near foo"),
            ParseError.mk 3 (strBytes "unexpected token")],
        (parseSegmentFull e).length ≤ 255) ∧
    (luau_lsl_compile
        (.parseErrors [ParseError.mk 1 (strBytes "syntax error near foo"),
                       ParseError.mk 3 (strBytes "unexpected token")]) true
        ⟨5, true⟩).1 =
      some (parseErrorHeader ++
        ([ParseError.mk 1 (strBytes "syntax error near foo"),
          ParseError.mk 3 (strBytes "unexpected token")].map
            parseSegmentFull).flatten) :=
  ⟨by decide, C1_parse_diagnostic_format _ _ (by decide)⟩

set_option maxRecDepth 10000 in
/-- C3, counterexample: the claim asserts the compile diagnostic is
exactly colon, line, colon-space, message, but snprintf into a 512-byte
buffer truncates: for a compile error on line 7 with a 600-byte message
the diagnostic returned by the bridge differs from that exact string. -/
theorem C3_counterexample :
    (luau_lsl_compile (.compileError 7 (List.replicate 600 98)) true
        ⟨0, false⟩).1 ≠
      some (strBytes ":" ++ natDecimal 7 ++ strBytes ": " ++
        List.replicate 600 98) := by
  decide

/-- C3, amended: whenever the formatted text (colon, line number,
colon-space, message) is at most 511 bytes, the diagnostic returned on
the compile-error branch equals exactly that string, with no leading
header; longer text is truncated to its first 511 bytes. -/
theorem C3_compile_diagnostic_format (line : Nat) (msg : Bytes)
    (init : OutParams) (h : (compileErrorFull line msg).length ≤ 511) :
    (luau_lsl_compile (.compileError line msg) true init).1 =
      some (strBytes ":" ++ natDecimal line ++ strBytes ": " ++ msg) := by
  rw [luau_lsl_compile]
  simp only [if_pos]
  rw [resultPayload, formatCompileError, snprintfTrunc,
    List.take_of_length_le h, compileErrorFull]

/-- C3, witness: a compile error on line 12 with a short message. -/
theorem C3_compile_diagnostic_format_witness :
    (compileErrorFull 12 (strBytes "unknown identifier")).length ≤ 511 ∧
    (luau_lsl_compile (.compileError 12 (strBytes "unknown identifier")) true
        ⟨3, false⟩).1 =
      some (strBytes ":" ++ natDecimal 12 ++ strBytes ": " ++
        strBytes "unknown identifier") :=
  ⟨by decide, C3_compile_diagnostic_format _ _ _ (by decide)⟩

/-- C2: provided the pipeline never reports success with empty bytecode
(real bytecode always contains at least a version byte, and every failure
diagnostic is nonempty), outsize is 0 exactly when the returned pointer
is null. -/
theorem C2_outsize_zero_iff_null (outcome : PipelineOutcome) (allocOk : Bool)
    (init : OutParams)
    (h : ∀ bc, outcome = PipelineOutcome.success bc → bc ≠ []) :
    ((luau_lsl_compile outcome allocOk init).2.outsize = 0 ↔
      (luau_lsl_compile outcome allocOk init).1 = none) := by
  cases allocOk with
  | false => simp [luau_lsl_compile]
  | true =>
    simp only [luau_lsl_compile, if_pos]
    constructor
    · intro hlen
      exfalso
      cases houtc : outcome with
      | success bc =>
        have hne := h bc houtc
        rw [houtc] at hlen
        simp only [resultPayload] at hlen
        exact hne (List.eq_nil_of_length_eq_zero hlen)
      | parseErrors errs =>
        have := resultPayload_pos outcome (by rw [houtc]; rfl)
        omega
      | compileError l m =>
        have := resultPayload_pos outcome (by rw [houtc]; rfl)
        omega
      | otherFailure =>
        have := resultPayload_pos outcome (by rw [houtc]; rfl)
        omega
    · intro hnone
      exact absurd hnone (by simp)

/-- C2, witness: a successful compilation with one byte of bytecode and a
successful allocation. -/
theorem C2_outsize_zero_iff_null_witness :
    (∀ bc, PipelineOutcome.success [42] = PipelineOutcome.success bc →
      bc ≠ []) ∧
    ((luau_lsl_compile (.success [42]) true ⟨7, true⟩).2.outsize = 0 ↔
      (luau_lsl_compile (.success [42]) true ⟨7, true⟩).1 = none) :=
  ⟨fun bc hbc => by injection hbc with h2; rw [← h2]; decide,
   C2_outsize_zero_iff_null _ _ _
     (fun bc hbc => by injection hbc with h2; rw [← h2]; decide)⟩

/-- C4: on the catch-all branch the bridge reports the literal text
"Unknown compilation error" with is_error true, and the bridge is total:
for every pipeline outcome and every allocation outcome the call returns
either null or exactly the flat payload of that outcome, never a native
fault. -/
theorem C4_unknown_fallback_total (allocOk : Bool) (init : OutParams) :
    (luau_lsl_compile .otherFailure allocOk init).2.is_error = true ∧
    ((luau_lsl_compile .otherFailure allocOk init).1 = none ∨
      (luau_lsl_compile .otherFailure allocOk init).1 =
        some (strBytes "Unknown compilation error")) ∧
    ∀ outcome : PipelineOutcome,
      (luau_lsl_compile outcome allocOk init).1 = none ∨
      (luau_lsl_compile outcome allocOk init).1 =
        some (resultPayload outcome) := by
  cases allocOk <;>
    simp [luau_lsl_compile, resultPayload, resultIsError]

/-- C5: whenever the bridge returns a non-null buffer, outsize equals the
length of that buffer, and is_error is false exactly when the pipeline
succeeded, hence true on each of the three failure branches. -/
theorem C5_flags_and_size (outcome : PipelineOutcome) (allocOk : Bool)
    (init : OutParams) (buf : Bytes)
    (h : (luau_lsl_compile outcome allocOk init).1 = some buf) :
    (luau_lsl_compile outcome allocOk init).2.outsize = buf.length ∧
    ((luau_lsl_compile outcome allocOk init).2.is_error = false ↔
      ∃ bc, outcome = PipelineOutcome.success bc) := by
  cases allocOk with
  | false => simp [luau_lsl_compile] at h
  | true =>
    simp only [luau_lsl_compile, if_pos, Option.some.injEq] at h ⊢
    subst h
    refine ⟨rfl, ?_⟩
    cases outcome with
    | success bc => simp [resultIsError]
    | parseErrors errs => simp [resultIsError]
    | compileError l m => simp [resultIsError]
    | otherFailure => simp [resultIsError]

/-- C5, witness: a compile error on line 2 with a one-byte message. -/
theorem C5_flags_and_size_witness :
    (luau_lsl_compile (.compileError 2 (strBytes "x")) true ⟨9, false⟩).1 =
      some (formatCompileError 2 (strBytes "x")) ∧
    ((luau_lsl_compile (.compileError 2 (strBytes "x")) true
        ⟨9, false⟩).2.outsize = (formatCompileError 2 (strBytes "x")).length ∧
      ((luau_lsl_compile (.compileError 2 (strBytes "x")) true
          ⟨9, false⟩).2.is_error = false ↔
        ∃ bc, PipelineOutcome.compileError 2 (strBytes "x") =
          PipelineOutcome.success bc)) :=
  ⟨rfl, C5_flags_and_size _ _ _ _ rfl⟩

/-- C6: whenever the bridge returns a non-null buffer, the buffer is a
byte-for-byte copy of the payload of the outcome (raw bytecode on
success, diagnostic bytes on failure), its length equals the reported
outsize with no terminator added, and on success it is exactly the
emitted bytecode, never a truncation. -/
theorem C6_exact_copy (outcome : PipelineOutcome) (allocOk : Bool)
    (init : OutParams) (buf : Bytes)
    (h : (luau_lsl_compile outcome allocOk init).1 = some buf) :
    buf = resultPayload outcome ∧
    buf.length = (luau_lsl_compile outcome allocOk init).2.outsize ∧
    ∀ bc, outcome = PipelineOutcome.success bc →
      (luau_lsl_compile outcome allocOk init).2.is_error = false ∧
        buf = bc := by
  cases allocOk with
  | false => simp [luau_lsl_compile] at h
  | true =>
    simp only [luau_lsl_compile, if_pos, Option.some.injEq] at h ⊢
    subst h
    refine ⟨rfl, rfl, ?_⟩
    intro bc hbc
    subst hbc
    exact ⟨rfl, rfl⟩

/-- C6, witness: success with three bytecode bytes, one of them zero. -/
theorem C6_exact_copy_witness :
    (luau_lsl_compile (.success [0, 1, 2]) true ⟨4, true⟩).1 =
      some [0, 1, 2] ∧
    ([0, 1, 2] : Bytes) = resultPayload (.success [0, 1, 2]) ∧
    ([0, 1, 2] : Bytes).length =
      (luau_lsl_compile (.success [0, 1, 2]) true ⟨4, true⟩).2.outsize ∧
    ∀ bc, PipelineOutcome.success [0, 1, 2] = PipelineOutcome.success bc →
      (luau_lsl_compile (.success [0, 1, 2]) true ⟨4, true⟩).2.is_error =
          false ∧ ([0, 1, 2] : Bytes) = bc :=
  ⟨rfl, C6_exact_copy _ _ _ _ rfl⟩

/-- C7: on the allocation-failure path the bridge returns null, outsize
is 0 regardless of its caller-provided initial contents (it was zeroed at
entry and never rewritten on that path), and is_error holds exactly the
same verdict as on the successful-allocation path, so allocation failure
is signalled only through the null return value. -/
theorem C7_alloc_failure_state (outcome : PipelineOutcome) (init : OutParams) :
    (luau_lsl_compile outcome false init).1 = none ∧
    (luau_lsl_compile outcome false init).2.outsize = 0 ∧
    (luau_lsl_compile outcome false init).2.is_error =
      (luau_lsl_compile outcome true init).2.is_error := by
  simp [luau_lsl_compile]

/-- C8: with the pipeline a fixed function of the source bytes, two calls
on byte-identical source produce identical outcomes (same buffer, same
outsize, same is_error), whatever the initial contents of the
out-parameters of either call: the bridge keeps no state between calls. -/
theorem C8_deterministic (pipeline : Bytes → PipelineOutcome) (allocOk : Bool)
    (init1 init2 : OutParams) (src1 src2 : Bytes) (h : src1 = src2) :
    bridgeCompile pipeline allocOk init1 src1 =
      bridgeCompile pipeline allocOk init2 src2 := by
  subst h
  cases init1
  cases init2
  cases allocOk <;> rfl

/-- C8, witness: the same two-byte source compiled twice with different
initial out-parameter contents. -/
theorem C8_deterministic_witness :
    bridgeCompile (fun _ => .otherFailure) true ⟨5, true⟩ [104, 105] =
      bridgeCompile (fun _ => .otherFailure) true ⟨0, false⟩ [104, 105] :=
  C8_deterministic (fun _ => .otherFailure) true ⟨5, true⟩ ⟨0, false⟩
    [104, 105] [104, 105] rfl

/-- The flattened parse segments occupy at most 255 bytes per error. -/
theorem parseSegments_flatten_le (errs : List ParseError) :
    ((errs.map parseSegment).flatten).length ≤ 255 * errs.length := by
  induction errs with
  | nil => simp
  | cons e es ih =>
    rw [List.map_cons, List.flatten_cons, List.length_append, List.length_cons]
    have h1 := parseSegment_le e
    have h2 : 255 * (es.length + 1) = 255 * es.length + 255 := by ring
    omega

/-- C9: the snprintf buffers bound the diagnostics: each formatted parse
segment is at most 255 bytes, the whole parse diagnostic is at most the
15-byte header plus 255 bytes per error, and the compile diagnostic is at
most 511 bytes; text beyond these limits is silently dropped. -/
theorem C9_truncation_limits (e : ParseError) (errs : List ParseError)
    (line : Nat) (msg : Bytes) :
    (parseSegment e).length ≤ 255 ∧
    (resultPayload (.parseErrors errs)).length ≤ 15 + 255 * errs.length ∧
    (resultPayload (.compileError line msg)).length ≤ 511 := by
  refine ⟨parseSegment_le e, ?_, ?_⟩
  · rw [resultPayload, formatParseErrors_eq, List.length_append]
    have h15 : parseErrorHeader.length = 15 := by decide
    have := parseSegments_flatten_le errs
    omega
  · rw [resultPayload, formatCompileError, snprintfTrunc, List.length_take]
    exact Nat.min_le_left 511 _

/-- C10: whenever the bridge returns a non-null buffer with is_error
true, the reported outsize is at least 1, because each failure diagnostic
is nonempty: it starts with the parse header ": Parse Errors:", or with a
colon byte followed by a decimal digit byte, or it is the exact text
"Unknown compilation error". -/
theorem C10_failure_payload_nonempty (outcome : PipelineOutcome)
    (allocOk : Bool) (init : OutParams) (buf : Bytes)
    (h1 : (luau_lsl_compile outcome allocOk init).1 = some buf)
    (h2 : (luau_lsl_compile outcome allocOk init).2.is_error = true) :
    1 ≤ (luau_lsl_compile outcome allocOk init).2.outsize ∧
    (buf.take 15 = strBytes ": Parse Errors:" ∨
      (∃ d, d < 10 ∧ buf.take 2 = [58, UInt8.ofNat (48 + d)]) ∨
      buf = strBytes "Unknown compilation error") := by
  cases allocOk with
  | false => simp [luau_lsl_compile] at h1
  | true =>
    simp only [luau_lsl_compile, if_pos, Option.some.injEq] at h1 h2 ⊢
    subst h1
    have hpos := resultPayload_pos outcome h2
    refine ⟨hpos, ?_⟩
    cases outcome with
    | success bc => simp [resultIsError] at h2
    | parseErrors errs =>
      left
      rw [resultPayload, formatParseErrors_eq]
      have h15 : parseErrorHeader.length = 15 := by decide
      rw [show (15 : Nat) = parseErrorHeader.length from h15.symm,
        List.take_left]
      rfl
    | compileError l m =>
      right; left
      obtain ⟨d, tl, hlt, hc⟩ := compileErrorFull_cons l m
      refine ⟨d, hlt, ?_⟩
      rw [resultPayload, formatCompileError, snprintfTrunc, List.take_take,
        show min 2 511 = 2 from rfl, hc]
      rfl
    | otherFailure =>
      right; right
      rfl

/-- C10, witness: a single parse error on line 1 with a successful
allocation. -/
theorem C10_failure_payload_nonempty_witness :
    (luau_lsl_compile (.parseErrors [⟨1, strBytes "bad"⟩]) true ⟨0, false⟩).1 =
      some (formatParseErrors [⟨1, strBytes "bad"⟩]) ∧
    (luau_lsl_compile (.parseErrors [⟨1, strBytes "bad"⟩]) true
        ⟨0, false⟩).2.is_error = true ∧
    (1 ≤ (luau_lsl_compile (.parseErrors [⟨1, strBytes "bad"⟩]) true
        ⟨0, false⟩).2.outsize ∧
      ((formatParseErrors [⟨1, strBytes "bad"⟩]).take 15 =
          strBytes ": Parse Errors:" ∨
        (∃ d, d < 10 ∧ (formatParseErrors [⟨1, strBytes "bad"⟩]).take 2 =
          [58, UInt8.ofNat (48 + d)]) ∨
        formatParseErrors [⟨1, strBytes "bad"⟩] =
          strBytes "Unknown compilation error")) :=
  ⟨rfl, rfl, C10_failure_payload_nonempty _ _ _ _ rfl rfl⟩
